import Mathlib

/-
Verification development for the CDP (Chrome DevTools Protocol) client of
the cdp-mcp repository.  Each definition below is a shallow embedding of a
function or a state component of src/src/cdp-client.ts or of the tool
handler in src/unnamed/part_000; doc comments name the embedded source
location.  Wire interactions (WebSocket sends, fetches) are modelled as
explicit state passing; JavaScript exceptions are modelled with Except.
-/

/-- Lookup in a JavaScript Map, modelled as an association list
(Map.prototype.get; returns undefined, here none, when the key is absent). -/
def mapGet {κ α : Type} [DecidableEq κ] : List (κ × α) → κ → Option α
  | [], _ => none
  | (k2, v) :: rest, k => if k2 = k then some v else mapGet rest k

/-- Deletion from a JavaScript Map, modelled on the association list
(Map.prototype.delete; Map keys are unique, so removing every pair with the
key is observationally the same as removing the single entry). -/
def mapDelete {κ α : Type} [DecidableEq κ] : List (κ × α) → κ → List (κ × α)
  | [], _ => []
  | (k2, v) :: rest, k =>
    if k2 = k then mapDelete rest k else (k2, v) :: mapDelete rest k

/-- Map.prototype.set: replace the value at an existing key, or append a new
entry at the end. -/
def mapSet {κ α : Type} [DecidableEq κ] : List (κ × α) → κ → α → List (κ × α)
  | [], k, v => [(k, v)]
  | (k2, w) :: rest, k, v =>
    if k2 = k then (k, v) :: rest else (k2, w) :: mapSet rest k v

theorem mapGet_mapDelete_self {κ α : Type} [DecidableEq κ]
    (m : List (κ × α)) (k : κ) : mapGet (mapDelete m k) k = none := by
  induction m with
  | nil => rfl
  | cons p rest ih =>
    obtain ⟨k2, v⟩ := p
    by_cases h : k2 = k
    · simp [mapDelete, h, ih]
    · simp [mapDelete, mapGet, h, ih]

theorem mapGet_mapDelete_ne {κ α : Type} [DecidableEq κ]
    (m : List (κ × α)) (k j : κ) (h : j ≠ k) :
    mapGet (mapDelete m k) j = mapGet m j := by
  induction m with
  | nil => rfl
  | cons p rest ih =>
    obtain ⟨k2, v⟩ := p
    by_cases hk : k2 = k
    · subst hk
      have hkj : k2 ≠ j := fun hc => h hc.symm
      simp [mapDelete, mapGet, hkj, ih]
    · simp only [mapDelete, if_neg hk, mapGet]
      by_cases hj : k2 = j
      · simp [hj]
      · simp [hj, ih]

/-- Result of invoking one registered event handler: it either returns
normally or throws. -/
inductive HRes where
  | ok
  | threw
deriving DecidableEq

/-- A registered event handler (an entry of the eventHandlers Map in
CDPClient).  The name identifies the handler so a dispatch trace can record
which handlers actually ran; run gives its behaviour on the event params. -/
structure Handler where
  name : Nat
  run : String → HRes

/-- How a pending command promise was settled: resolved with a result value
or rejected with an error message.  CDPClient stores the resolve and reject
callbacks in pendingMessages; here the act of calling one of them is
recorded as an Outcome keyed by the command id. -/
inductive Outcome where
  | resolvedWith (result : String)
  | rejectedWith (msg : String)
deriving DecidableEq

/-- State of a CDPClient instance (fields of the class in
src/src/cdp-client.ts lines 22-34).  wsOpen models `this.ws` being non-null
and open; settled is the history of promise settlements (most recent
first), which is how resolve and reject calls are observed in this model. -/
structure ClientState where
  wsOpen : Bool
  messageId : Nat
  pendingMessages : List (Nat × String)
  eventHandlers : List (String × List Handler)
  frameContexts : List (String × Nat)
  contextFrames : List (Nat × String)
  currentTabId : Option String
  mainFrameId : Option String
  settled : List (Nat × Outcome)

/-- Outcome recorded for command id, if any (none means the promise for
that id has neither resolved nor rejected). -/
def settledOf (st : ClientState) (id : Nat) : Option Outcome :=
  mapGet st.settled id

/-- CDPClient.send (cdp-client.ts lines 124-144), up to the point where the
message is handed to the WebSocket: throws when not connected, otherwise
allocates the next monotonic id and registers a PendingCommand for it. -/
def send (st : ClientState) (method : String) :
    Except String (Nat × ClientState) :=
  if st.wsOpen = false then Except.error "Not connected to CDP"
  else
    Except.ok (st.messageId,
      { st with
        messageId := st.messageId + 1,
        pendingMessages := st.pendingMessages ++ [(st.messageId, method)] })

/-- The response branch of the message handler installed by
CDPClient.connectToTab (cdp-client.ts lines 102-112): look up the pending
entry for the id of the incoming frame; if present, delete it and settle
the promise (reject on an error payload, resolve on a result payload); if
absent, do nothing at all. -/
def handleResponse (st : ClientState) (id : Nat)
    (resp : Except String String) : ClientState :=
  match mapGet st.pendingMessages id with
  | none => st
  | some _ =>
    { st with
      pendingMessages := mapDelete st.pendingMessages id,
      settled :=
        (id,
          match resp with
          | Except.ok v => Outcome.resolvedWith v
          | Except.error e => Outcome.rejectedWith e) :: st.settled }

/-- The rejection message built by the timeout callback in CDPClient.send
(cdp-client.ts line 140): it interpolates the method only. -/
def timeoutMsg (method : String) : String :=
  "CDP command " ++ method ++ " timed out"

/-- The timeout callback registered by CDPClient.send (cdp-client.ts lines
137-142): after the fixed 30 time-unit window, if the PendingCommand for
the captured id is still present, delete it and reject with the timeout
message for the captured method; otherwise do nothing. -/
def fireTimeout (st : ClientState) (id : Nat) (method : String) :
    ClientState :=
  match mapGet st.pendingMessages id with
  | none => st
  | some _ =>
    { st with
      pendingMessages := mapDelete st.pendingMessages id,
      settled := (id, Outcome.rejectedWith (timeoutMsg method)) :: st.settled }

/-- The close handler installed by CDPClient.connectToTab (cdp-client.ts
lines 95-97): on channel closure it only sets `this.ws = null`; no pending
command is rejected and no tracking table is touched. -/
def onClose (st : ClientState) : ClientState :=
  { st with wsOpen := false }

/-- CDPClient.disconnect (cdp-client.ts lines 707-718): close and drop the
socket, then clear pendingMessages, eventHandlers, frameContexts and
contextFrames, and reset the tab and main-frame ids.  The pending promises
are discarded without being settled: nothing is appended to the settlement
history. -/
def disconnect (st : ClientState) : ClientState :=
  { wsOpen := false,
    messageId := st.messageId,
    pendingMessages := [],
    eventHandlers := [],
    frameContexts := [],
    contextFrames := [],
    currentTabId := none,
    mainFrameId := none,
    settled := st.settled }

/-- CDPClient.on (cdp-client.ts lines 146-151): append the handler to the
list registered for the event name, creating the list if needed. -/
def onRegister (st : ClientState) (event : String) (h : Handler) :
    ClientState :=
  { st with
    eventHandlers :=
      mapSet st.eventHandlers event
        (((mapGet st.eventHandlers event).getD []) ++ [h]) }

/-- handlers.forEach(h => h(params)) from the event branch of the message
handler (cdp-client.ts line 117).  forEach invokes the callbacks in list
order; a callback that throws propagates its exception out of forEach, so
the remaining callbacks are not visited.  The returned list records the
names of the handlers that were actually invoked, in order. -/
def dispatchHandlers (params : String) : List Handler → List Nat
  | [] => []
  | h :: rest =>
    match h.run params with
    | HRes.threw => [h.name]
    | HRes.ok => h.name :: dispatchHandlers params rest

/-- The event branch of the message handler (cdp-client.ts lines 113-119):
look up the handler list for the event method and run forEach over it;
with no registered list nothing runs. -/
def dispatchEvent (st : ClientState) (method : String) (params : String) :
    List Nat :=
  match mapGet st.eventHandlers method with
  | none => []
  | some hs => dispatchHandlers params hs

/-- A concrete connected client state with two commands in flight, one
registered event handler and one tracked frame context. -/
def sampleState : ClientState :=
  { wsOpen := true,
    messageId := 3,
    pendingMessages := [(1, "Page.navigate"), (2, "DOM.getDocument")],
    eventHandlers := [("Page.loadEventFired", [⟨0, fun _ => HRes.ok⟩])],
    frameContexts := [("frameA", 7)],
    contextFrames := [(7, "frameA")],
    currentTabId := some "tab1",
    mainFrameId := some "frameA",
    settled := [] }

/-- A connected state whose only in-flight command has id 1. -/
def timeoutStateA : ClientState :=
  { wsOpen := true,
    messageId := 2,
    pendingMessages := [(1, "Page.navigate")],
    eventHandlers := [],
    frameContexts := [],
    contextFrames := [],
    currentTabId := none,
    mainFrameId := none,
    settled := [] }

/-- A connected state whose only in-flight command has id 2, with the same
method as timeoutStateA. -/
def timeoutStateB : ClientState :=
  { timeoutStateA with messageId := 3, pendingMessages := [(2, "Page.navigate")] }

/-- Claim C2 counterexample: in sampleState command id 1 is in flight; an
explicit disconnect discards it without any rejection (the settlement
history stays empty, so no pending command was rejected with a
disconnected error), and a channel closure leaves the pending-command
table, the frame map and the listener registry untouched, contradicting
the claim that both paths reject all in-flight commands and clear all
tracking tables. -/
theorem c2_disconnect_counterexample :
    mapGet sampleState.pendingMessages 1 = some "Page.navigate"
    ∧ (disconnect sampleState).settled = []
    ∧ settledOf (disconnect sampleState) 1 = none
    ∧ (onClose sampleState).pendingMessages
        = [(1, "Page.navigate"), (2, "DOM.getDocument")]
    ∧ (onClose sampleState).frameContexts = [("frameA", 7)]
    ∧ (onClose sampleState).eventHandlers.length = 1 := by
  refine ⟨rfl, rfl, rfl, rfl, rfl, rfl⟩

/-- Claim C2 (amended): on explicit disconnect every tracking table
(pending-command table, event-listener registry, frame and context maps)
is cleared and the tab and main-frame ids are reset, but the in-flight
commands are dropped without being rejected: the settlement history is
unchanged, and the later timeout callbacks of the dropped commands find no
entry and settle nothing.  On channel closure only the channel reference
is dropped: the rest of the state, tracking tables included, is untouched. -/
theorem c2_disconnect_behavior (st : ClientState) :
    (disconnect st).pendingMessages = []
    ∧ (disconnect st).eventHandlers = []
    ∧ (disconnect st).frameContexts = []
    ∧ (disconnect st).contextFrames = []
    ∧ (disconnect st).currentTabId = none
    ∧ (disconnect st).mainFrameId = none
    ∧ (disconnect st).wsOpen = false
    ∧ (disconnect st).settled = st.settled
    ∧ (∀ id method, fireTimeout (disconnect st) id method = disconnect st)
    ∧ onClose st = { st with wsOpen := false } := by
  refine ⟨rfl, rfl, rfl, rfl, rfl, rfl, rfl, rfl, ?_, rfl⟩
  intro id method
  rfl

/-- Claim C3 counterexample: the timeout rejection message is built from
the method alone, so the in-flight commands of id 1 and of id 2 with the
same method are rejected with literally identical messages, and the
message for the command of id 1 does not even contain the digit 1: the
rejection does not name the command id as the claim states. -/
theorem c3_timeout_counterexample :
    settledOf (fireTimeout timeoutStateA 1 "Page.navigate") 1
      = settledOf (fireTimeout timeoutStateB 2 "Page.navigate") 2
    ∧ settledOf (fireTimeout timeoutStateA 1 "Page.navigate") 1
      = some (Outcome.rejectedWith (timeoutMsg "Page.navigate"))
    ∧ ('1' ∈ (timeoutMsg "Page.navigate").toList) = False := by
  refine ⟨rfl, rfl, ?_⟩
  simp [timeoutMsg]

/-- Claim C3 (amended): a command call that receives no response within the
fixed 30 time-unit window rejects with an error naming the method (the id
is not part of the message), its PendingCommand entry is removed, and a
response bearing the same id that arrives after the timeout has no effect:
the state is left exactly as the timeout left it. -/
theorem c3_timeout_behavior (st : ClientState) (id : Nat) (method : String)
    (h : mapGet st.pendingMessages id = some method) :
    settledOf (fireTimeout st id method) id
      = some (Outcome.rejectedWith (timeoutMsg method))
    ∧ mapGet (fireTimeout st id method).pendingMessages id = none
    ∧ (∀ resp, handleResponse (fireTimeout st id method) id resp
        = fireTimeout st id method) := by
  have hstep : fireTimeout st id method
      = { st with
          pendingMessages := mapDelete st.pendingMessages id,
          settled :=
            (id, Outcome.rejectedWith (timeoutMsg method)) :: st.settled } := by
    simp [fireTimeout, h]
  refine ⟨?_, ?_, ?_⟩
  · rw [hstep]
    simp [settledOf, mapGet]
  · rw [hstep]
    exact mapGet_mapDelete_self st.pendingMessages id
  · intro resp
    have hnone : mapGet (fireTimeout st id method).pendingMessages id = none := by
      rw [hstep]
      exact mapGet_mapDelete_self st.pendingMessages id
    simp [handleResponse, hnone]

/-- Witness for c3_timeout_behavior at a concrete state: the command of id
1 in timeoutStateA times out, is rejected with the method-naming message,
and a late response for id 1 carrying a result changes nothing. -/
theorem c3_timeout_behavior_witness :
    handleResponse (fireTimeout timeoutStateA 1 "Page.navigate") 1
        (Except.ok "lateResult")
      = fireTimeout timeoutStateA 1 "Page.navigate" :=
  (c3_timeout_behavior timeoutStateA 1 "Page.navigate" rfl).2.2 (Except.ok "lateResult")

/-- Claim C4: with commands a and b both in flight and a smaller than b,
the response for b settles b with the result carried for b, removes only
the entry of b, leaves the entry of a in place with its settlement
unchanged, and the later response carrying the id of a settles a with the
result carried for a: responses are matched to calls by id, independent of
arrival order. -/
theorem c4_out_of_order_resolution (st : ClientState) (a b : Nat)
    (ma mb ra rb : String) (hab : a < b)
    (ha : mapGet st.pendingMessages a = some ma)
    (hb : mapGet st.pendingMessages b = some mb) :
    settledOf (handleResponse st b (Except.ok rb)) b
      = some (Outcome.resolvedWith rb)
    ∧ mapGet (handleResponse st b (Except.ok rb)).pendingMessages b = none
    ∧ mapGet (handleResponse st b (Except.ok rb)).pendingMessages a = some ma
    ∧ settledOf (handleResponse st b (Except.ok rb)) a = settledOf st a
    ∧ settledOf
        (handleResponse (handleResponse st b (Except.ok rb)) a (Except.ok ra)) a
      = some (Outcome.resolvedWith ra) := by
  have hne : a ≠ b := Nat.ne_of_lt hab
  have hbne : b ≠ a := fun hc => hne hc.symm
  have hstep : handleResponse st b (Except.ok rb)
      = { st with
          pendingMessages := mapDelete st.pendingMessages b,
          settled := (b, Outcome.resolvedWith rb) :: st.settled } := by
    simp [handleResponse, hb]
  have hpa : mapGet (handleResponse st b (Except.ok rb)).pendingMessages a
      = some ma := by
    rw [hstep]
    simpa [mapGet_mapDelete_ne st.pendingMessages b a hne] using ha
  refine ⟨?_, ?_, hpa, ?_, ?_⟩
  · rw [hstep]
    simp [settledOf, mapGet]
  · rw [hstep]
    exact mapGet_mapDelete_self st.pendingMessages b
  · rw [hstep]
    simp [settledOf, mapGet, hbne]
  · set s1 := handleResponse st b (Except.ok rb) with hs1
    unfold handleResponse
    rw [hpa]
    simp [settledOf, mapGet]

/-- Witness for c4_out_of_order_resolution: in sampleState, command 1 is
Page.navigate and command 2 is DOM.getDocument; delivering the response
for id 2 first and then the response for id 1 settles each with its own
result. -/
theorem c4_out_of_order_resolution_witness :
    settledOf (handleResponse sampleState 2 (Except.ok "docRoot")) 2
      = some (Outcome.resolvedWith "docRoot")
    ∧ mapGet (handleResponse sampleState 2 (Except.ok "docRoot")).pendingMessages 2
      = none
    ∧ mapGet (handleResponse sampleState 2 (Except.ok "docRoot")).pendingMessages 1
      = some "Page.navigate"
    ∧ settledOf (handleResponse sampleState 2 (Except.ok "docRoot")) 1
      = settledOf sampleState 1
    ∧ settledOf
        (handleResponse (handleResponse sampleState 2 (Except.ok "docRoot")) 1
          (Except.ok "navDone")) 1
      = some (Outcome.resolvedWith "navDone") :=
  c4_out_of_order_resolution sampleState 1 2 "Page.navigate" "DOM.getDocument"
    "navDone" "docRoot" (by decide) rfl rfl

/-- A handler that throws on every event. -/
def throwingHandler : Handler := ⟨1, fun _ => HRes.threw⟩

/-- A handler that returns normally on every event. -/
def okHandler : Handler := ⟨2, fun _ => HRes.ok⟩

/-- A connected state with a throwing handler registered before a normal
handler for one event name. -/
def c9State : ClientState :=
  { wsOpen := true,
    messageId := 1,
    pendingMessages := [],
    eventHandlers := [("Page.frameNavigated", [throwingHandler, okHandler])],
    frameContexts := [],
    contextFrames := [],
    currentTabId := none,
    mainFrameId := none,
    settled := [] }

/-- Claim C9 counterexample: with handler 1 (throwing) registered before
handler 2 for Page.frameNavigated, dispatching one event invokes only
handler 1; handler 2 is never invoked, contradicting the claim that a
throwing handler never prevents subsequent handlers from running. -/
theorem c9_dispatch_counterexample :
    dispatchEvent c9State "Page.frameNavigated" "eventParams" = [1]
    ∧ (2 : Nat) ∉ dispatchEvent c9State "Page.frameNavigated" "eventParams" := by
  refine ⟨rfl, ?_⟩
  decide

/-- All handlers before the throwing one run, then the dispatch stops. -/
theorem dispatchHandlers_stops_at_throw (params : String) :
    ∀ (l1 : List Handler) (h : Handler) (l2 : List Handler),
      (∀ g ∈ l1, g.run params = HRes.ok) →
      h.run params = HRes.threw →
      dispatchHandlers params (l1 ++ h :: l2)
        = l1.map Handler.name ++ [h.name] := by
  intro l1
  induction l1 with
  | nil =>
    intro h l2 _ hthrow
    simp [dispatchHandlers, hthrow]
  | cons g rest ih =>
    intro h l2 hok hthrow
    have hg : g.run params = HRes.ok := hok g (by simp)
    have hrest : ∀ g2 ∈ rest, g2.run params = HRes.ok := by
      intro g2 hg2
      exact hok g2 (by simp [hg2])
    simp [dispatchHandlers, hg, ih h l2 hrest hthrow]

/-- Claim C9 (amended): during an event dispatch, a handler that throws
stops the dispatch: exactly the handlers registered before it (in
registration order) and the throwing handler itself are invoked, and no
handler registered after it runs.  Per-handler failure isolation is not
implemented. -/
theorem c9_throwing_handler_stops_dispatch (st : ClientState)
    (method params : String) (l1 l2 : List Handler) (h : Handler)
    (hreg : mapGet st.eventHandlers method = some (l1 ++ h :: l2))
    (hok : ∀ g ∈ l1, g.run params = HRes.ok)
    (hthrow : h.run params = HRes.threw) :
    dispatchEvent st method params = l1.map Handler.name ++ [h.name] := by
  unfold dispatchEvent
  rw [hreg]
  exact dispatchHandlers_stops_at_throw params l1 h l2 hok hthrow

/-- Witness for c9_throwing_handler_stops_dispatch: a normal handler, then
the throwing handler, then a third handler; the dispatch invokes handlers
2 and 1 and never reaches the third. -/
theorem c9_throwing_handler_stops_dispatch_witness :
    dispatchEvent
      { wsOpen := true,
        messageId := 1,
        pendingMessages := [],
        eventHandlers :=
          [("Page.loadEventFired",
            [okHandler] ++ throwingHandler :: [⟨3, fun _ => HRes.ok⟩])],
        frameContexts := [],
        contextFrames := [],
        currentTabId := none,
        mainFrameId := none,
        settled := [] }
      "Page.loadEventFired" "eventParams"
      = [okHandler].map Handler.name ++ [throwingHandler.name] :=
  c9_throwing_handler_stops_dispatch _ "Page.loadEventFired" "eventParams"
    [okHandler] [⟨3, fun _ => HRes.ok⟩] throwingHandler rfl
    (by intro g hg; simp at hg; subst hg; rfl) rfl

/-- State of the browser emulation as the screenshot path sees it
(cdp-client.ts lines 410-434): the real viewport, the scrollable content
size reported by Page.getLayoutMetrics, whether a device-metrics override
is currently installed, and whether the next Page.captureScreenshot
command fails. -/
structure EmuWorld where
  viewportW : Nat
  viewportH : Nat
  contentW : Nat
  contentH : Nat
  override : Option (Nat × Nat)
  captureFails : Bool
deriving DecidableEq

/-- The size at which Page.captureScreenshot captures: the override size
when a device-metrics override is installed, the viewport size otherwise. -/
def capturedSize (w : EmuWorld) : Nat × Nat :=
  match w.override with
  | some s => s
  | none => (w.viewportW, w.viewportH)

/-- CDPClient.screenshot (cdp-client.ts lines 410-434), state-passing form.
With fullPage it first installs a device-metrics override at the content
size, then awaits Page.captureScreenshot; a capture failure propagates as
an exception at that await, and since there is no try/finally around it,
the trailing Emulation.clearDeviceMetricsOverride is only reached on the
success path.  The returned image is reported as the size it captured. -/
def screenshot (w : EmuWorld) (fullPage : Bool) :
    Except String (Nat × Nat) × EmuWorld :=
  let w1 := if fullPage then { w with override := some (w.contentW, w.contentH) } else w
  if w1.captureFails then (Except.error "Page.captureScreenshot failed", w1)
  else
    let data := capturedSize w1
    let w2 := if fullPage then { w1 with override := none } else w1
    (Except.ok data, w2)

/-- An 800 by 600 viewport over a 2000 by 3000 page, no override installed,
where the next capture command fails. -/
def leakWorld : EmuWorld :=
  { viewportW := 800, viewportH := 600,
    contentW := 2000, contentH := 3000,
    override := none, captureFails := true }

/-- Claim C1 is right and the code is wrong: a fullPage screenshot whose
capture command fails leaves the device-metrics override installed (the
clear command is only sent on the success path), so the next
fullPage false screenshot on the same connection captures at the stuck
2000 by 3000 override size instead of the original 800 by 600 viewport.
When the capture succeeds the override is cleared as intended. -/
theorem c1_screenshot_override_leak :
    (screenshot leakWorld true).1 = Except.error "Page.captureScreenshot failed"
    ∧ (screenshot leakWorld true).2.override = some (2000, 3000)
    ∧ (screenshot { (screenshot leakWorld true).2 with captureFails := false }
        false).1 = Except.ok (2000, 3000)
    ∧ (screenshot { leakWorld with captureFails := false } false).1
      = Except.ok (800, 600)
    ∧ (screenshot { leakWorld with captureFails := false } true).2.override
      = none := by
  refine ⟨rfl, rfl, rfl, rfl, rfl⟩

/-- A text input element as the composite type operation sees it: its
current value and whether it accepts a programmatic value assignment
(acceptsAssign false models a framework that silently ignores non-keyboard
input, leaving the value unchanged). -/
structure TypeElement where
  value : String
  acceptsAssign : Bool
deriving DecidableEq

/-- Assigning to the element value through the native setter: stored when
the element accepts assignment, silently ignored otherwise. -/
def setElementValue (el : TypeElement) (v : String) : TypeElement :=
  if el.acceptsAssign then { el with value := v } else el

/-- The script injected by CDPClient.type (cdp-client.ts lines 311-344) on
the element matched by the selector (none when the selector matches
nothing).  With clear the new value is the text, otherwise the existing
value with the text appended; the native setter stores it subject to the
element's behaviour, and the script reports success true whenever the
element was found, with no comparison of the stored value. -/
def typeScript (el : Option TypeElement) (text : String) (clear : Bool) :
    Bool × Option TypeElement :=
  match el with
  | none => (false, none)
  | some e =>
    let newValue := if clear then text else e.value ++ text
    (true, some (setElementValue e newValue))

/-- CDPClient.type (cdp-client.ts lines 302-362): run the injected script
and return whether it reported success.  The optional delayed key-event
pass dispatches keyDown and keyUp events without a text payload, which
inserts no characters, so it does not change the element value. -/
def clientType (el : Option TypeElement) (text : String) (clear : Bool) :
    Bool × Option TypeElement :=
  typeScript el text clear

/-- The read-back used by the tool handler (src/unnamed/part_000 lines
411-413): document.querySelector(sel)?.value with a JavaScript or-null
fallback, so a missing element and an empty string value both read as
null. -/
def readBack (el : Option TypeElement) : Option String :=
  match el with
  | none => none
  | some e => if e.value = "" then none else some e.value

/-- The result object of the type action of cdp_interact (src/unnamed/
part_000 lines 416-423). -/
structure TypeActionResult where
  success : Bool
  expected : String
  actual : Option String
deriving DecidableEq

/-- The type case of the cdp_interact tool handler (src/unnamed/part_000
lines 399-423): reject an empty value (JavaScript falsiness check), call
client.type with clear true, read the element value back, and report
success only when the script succeeded and the read-back equals the
requested value, together with the expected and actual values. -/
def handleTypeAction (el : Option TypeElement) (text : String) :
    Except String TypeActionResult :=
  if text = "" then Except.error "value required for type action"
  else
    let typed := (clientType el text true).1
    let el2 := (clientType el text true).2
    let actualValue := readBack el2
    let verified := actualValue == some text
    Except.ok { success := typed && verified, expected := text, actual := actualValue }

/-- Claim C5: the type action with clear reports success only when the
read-back element value equals the intended text; and against an element
that silently rejects the assigned value (with a non-empty current value
different from the text), it returns success false with the actual field
holding the unmodified element value and the expected field holding the
intended text. -/
theorem c5_type_verification :
    (∀ (el : Option TypeElement) (text : String) (r : TypeActionResult),
        handleTypeAction el text = Except.ok r → r.success = true →
        r.actual = some text)
    ∧ (∀ (e : TypeElement) (text : String),
        e.acceptsAssign = false → e.value ≠ text → e.value ≠ "" → text ≠ "" →
        handleTypeAction (some e) text
          = Except.ok { success := false, expected := text, actual := some e.value }) := by
  constructor
  · intro el text r hr hs
    by_cases htext : text = ""
    · simp [handleTypeAction, htext] at hr
    · simp only [handleTypeAction, if_neg htext] at hr
      have hrec := Except.ok.inj hr
      subst hrec
      cases el with
      | none =>
        simp [clientType, typeScript] at hs
      | some e =>
        simp only [clientType, typeScript, Bool.true_and] at hs
        have := eq_of_beq hs
        simpa [clientType, typeScript] using this
  · intro e text hacc hne hnev htext
    have hset : setElementValue e text = e := by
      simp [setElementValue, hacc]
    have hread : readBack (some e) = some e.value := by
      simp [readBack, hnev]
    have hver : (some e.value == some text) = false := by
      simp [hne]
    simp [handleTypeAction, htext, clientType, typeScript, hset, hread, hver]

/-- Witness for c5_type_verification: an element holding old that ignores
assignment; typing hello with clear reports success false, expected hello,
actual old. -/
theorem c5_type_verification_witness :
    handleTypeAction (some { value := "old", acceptsAssign := false }) "hello"
      = Except.ok { success := false, expected := "hello", actual := some "old" } :=
  c5_type_verification.2 { value := "old", acceptsAssign := false } "hello"
    rfl (by decide) (by decide) (by decide)

/-- The frame record of the Page.getFrameTree response: id, url and name
(name defaults to the empty string in the walker). -/
structure FrameInfo where
  id : String
  url : String
  name : String
deriving DecidableEq

/-- A node of the frame tree returned by Page.getFrameTree: a frame and
its child frames. -/
inductive FrameTree : Type where
  | node : FrameInfo → List FrameTree → FrameTree

/-- An entry of the flattened frame list built by CDPClient.listFrames
(cdp-client.ts lines 484-504). -/
structure FrameRec where
  id : String
  url : String
  name : String
  isMain : Bool
deriving DecidableEq

mutual

/-- The walkFrames closure of CDPClient.listFrames (cdp-client.ts lines
488-500): push the node's frame tagged with the incoming isMain flag, then
recurse into the children with the flag false, depth first. -/
def walkFrames (node : FrameTree) (isMain : Bool) : List FrameRec :=
  match node with
  | FrameTree.node info children =>
    { id := info.id, url := info.url, name := info.name, isMain := isMain }
      :: walkFramesList children

/-- Depth-first walk over a child list, every node tagged non-main. -/
def walkFramesList (children : List FrameTree) : List FrameRec :=
  match children with
  | [] => []
  | c :: cs => walkFrames c false ++ walkFramesList cs

end

/-- CDPClient.listFrames (cdp-client.ts lines 484-504): flatten the frame
tree depth first, the root tagged as the main frame. -/
def listFrames (tree : FrameTree) : List FrameRec :=
  walkFrames tree true

/-- The successful return shape of CDPClient.findElementInFrames. -/
structure FoundFrame where
  frameId : String
  found : Bool
deriving DecidableEq

/-- The loop of CDPClient.findElementInFrames (cdp-client.ts lines
569-587) over an already-flattened frame list: evaluate the existence
check in each frame in order; the first frame reporting true wins; a frame
whose evaluation throws is skipped by the catch-continue; null when every
frame is exhausted. -/
def findElementInFrames (evalIn : String → Except String Bool)
    (frames : List FrameRec) : Option FoundFrame :=
  match frames with
  | [] => none
  | f :: rest =>
    match evalIn f.id with
    | Except.ok true => some { frameId := f.id, found := true }
    | Except.ok false => findElementInFrames evalIn rest
    | Except.error _ => findElementInFrames evalIn rest

/-- CDPClient.findElementInFrames entry point: list the frames of the tree
and search them in that order. -/
def findElementInPage (evalIn : String → Except String Bool)
    (tree : FrameTree) : Option FoundFrame :=
  findElementInFrames evalIn (listFrames tree)

theorem findElementInFrames_first_match
    (evalIn : String → Except String Bool) :
    ∀ (l1 : List FrameRec) (f : FrameRec) (l2 : List FrameRec),
      (∀ g ∈ l1, evalIn g.id ≠ Except.ok true) →
      evalIn f.id = Except.ok true →
      findElementInFrames evalIn (l1 ++ f :: l2)
        = some { frameId := f.id, found := true } := by
  intro l1
  induction l1 with
  | nil =>
    intro f l2 _ hf
    simp [findElementInFrames, hf]
  | cons g rest ih =>
    intro f l2 hmiss hf
    have hg : evalIn g.id ≠ Except.ok true := hmiss g (by simp)
    have hrest : ∀ g2 ∈ rest, evalIn g2.id ≠ Except.ok true := by
      intro g2 hg2
      exact hmiss g2 (by simp [hg2])
    rcases hv : evalIn g.id with e | b
    · simp [findElementInFrames, hv, ih f l2 hrest hf]
    · cases b with
      | true => exact absurd hv hg
      | false => simp [findElementInFrames, hv, ih f l2 hrest hf]

theorem findElementInFrames_exhausted
    (evalIn : String → Except String Bool) :
    ∀ (fs : List FrameRec),
      (∀ g ∈ fs, evalIn g.id ≠ Except.ok true) →
      findElementInFrames evalIn fs = none := by
  intro fs
  induction fs with
  | nil => intro _; rfl
  | cons g rest ih =>
    intro hmiss
    have hg : evalIn g.id ≠ Except.ok true := hmiss g (by simp)
    have hrest : ∀ g2 ∈ rest, evalIn g2.id ≠ Except.ok true := by
      intro g2 hg2
      exact hmiss g2 (by simp [hg2])
    rcases hv : evalIn g.id with e | b
    · simp [findElementInFrames, hv, ih hrest]
    · cases b with
      | true => exact absurd hv hg
      | false => simp [findElementInFrames, hv, ih hrest]

mutual

/-- Every frame a non-root walk produces is tagged non-main. -/
theorem walkFrames_not_main (t : FrameTree) :
    ∀ f ∈ walkFrames t false, f.isMain = false := by
  match t with
  | FrameTree.node info children =>
    intro f hf
    rw [walkFrames] at hf
    rcases List.mem_cons.mp hf with h | h
    · rw [h]
    · exact walkFramesList_not_main children f h

/-- Every frame produced from a child list is tagged non-main. -/
theorem walkFramesList_not_main (cs : List FrameTree) :
    ∀ f ∈ walkFramesList cs, f.isMain = false := by
  match cs with
  | [] =>
    intro f hf
    rw [walkFramesList] at hf
    exact absurd hf (List.not_mem_nil f)
  | c :: rest =>
    intro f hf
    rw [walkFramesList] at hf
    rcases List.mem_append.mp hf with h | h
    · exact walkFrames_not_main c f h
    · exact walkFramesList_not_main rest f h

end

/-- Claim C6: findElementInFrames searches the frames in the order
produced by listFrames, whose head is the tree root tagged as the only
main frame; the first frame whose existence check reports true wins even
when later frames also match, a frame whose evaluation throws is skipped
without aborting the search (it merely fails the first-match condition),
and the search reports null exactly when every frame is exhausted without
a match. -/
theorem c6_find_element_first_match :
    (∀ (evalIn : String → Except String Bool) (tree : FrameTree)
        (l1 : List FrameRec) (f : FrameRec) (l2 : List FrameRec),
        listFrames tree = l1 ++ f :: l2 →
        (∀ g ∈ l1, evalIn g.id ≠ Except.ok true) →
        evalIn f.id = Except.ok true →
        findElementInPage evalIn tree = some { frameId := f.id, found := true })
    ∧ (∀ (evalIn : String → Except String Bool) (tree : FrameTree),
        (∀ g ∈ listFrames tree, evalIn g.id ≠ Except.ok true) →
        findElementInPage evalIn tree = none)
    ∧ (∀ (info : FrameInfo) (children : List FrameTree),
        listFrames (FrameTree.node info children)
          = { id := info.id, url := info.url, name := info.name, isMain := true }
              :: walkFramesList children
        ∧ ∀ f ∈ walkFramesList children, f.isMain = false) := by
  refine ⟨?_, ?_, ?_⟩
  · intro evalIn tree l1 f l2 hsplit hmiss hf
    unfold findElementInPage
    rw [hsplit]
    exact findElementInFrames_first_match evalIn l1 f l2 hmiss hf
  · intro evalIn tree hmiss
    exact findElementInFrames_exhausted evalIn (listFrames tree) hmiss
  · intro info children
    exact ⟨by rw [listFrames, walkFrames], walkFramesList_not_main children⟩

/-- A three-frame page: a main frame with two child frames. -/
def demoTree : FrameTree :=
  FrameTree.node { id := "frame1", url := "https://a.example/", name := "" }
    [FrameTree.node { id := "frame2", url := "https://b.example/", name := "inner" } [],
     FrameTree.node { id := "frame3", url := "https://c.example/", name := "" } []]

/-- An evaluation in which the main frame throws (cross-origin) and both
child frames report a match. -/
def demoEval (frameId : String) : Except String Bool :=
  if frameId = "frame1" then Except.error "cross-origin frame" else Except.ok true

/-- Witness for c6_find_element_first_match: on demoTree with demoEval,
the throwing main frame is skipped and frame2, the earlier of the two
matching frames in depth-first order, wins. -/
theorem c6_find_element_first_match_witness :
    findElementInPage demoEval demoTree
      = some { frameId := "frame2", found := true } :=
  c6_find_element_first_match.1 demoEval demoTree
    [{ id := "frame1", url := "https://a.example/", name := "", isMain := true }]
    { id := "frame2", url := "https://b.example/", name := "inner", isMain := false }
    [{ id := "frame3", url := "https://c.example/", name := "", isMain := false }]
    rfl
    (by intro g hg; simp at hg; subst hg; simp [demoEval])
    (by simp [demoEval])

/-- A tab entry from the /json discovery endpoint (cdp-client.ts lines
14-20). -/
structure TabInfo where
  id : String
  title : String
  url : String
  type : String
  webSocketDebuggerUrl : Option String
deriving DecidableEq, Inhabited

/-- CDPClient.listTabs (cdp-client.ts lines 153-157): the discovery list
filtered to page-typed tabs. -/
def listTabsOf (tabs : List TabInfo) : List TabInfo :=
  List.filter (fun t => t.type == "page") tabs

/-- The tab-selection step of CDPClient.connect (cdp-client.ts lines
54-62): filter to page tabs, fail when none exist, otherwise pick the tab
at index min(tabIndex, count - 1) and fail if it lacks a WebSocket
debugger address. -/
def connectSelectTab (tabs : List TabInfo) (tabIndex : Nat) :
    Except String TabInfo :=
  let pageTabs := listTabsOf tabs
  if pageTabs.length = 0 then Except.error "No page tabs available"
  else
    let targetTab := pageTabs.getD (min tabIndex (pageTabs.length - 1)) default
    match targetTab.webSocketDebuggerUrl with
    | none => Except.error "Tab does not have WebSocket debugger URL"
    | some _ => Except.ok targetTab

/-- Claim C7: when the filtered page-tab list is non-empty (and the
clamped tab carries a debugger address, which every page tab does), the
selected tab is the one at index min(tabIndex, count - 1); that index is
always in range, and an out-of-range tabIndex degrades to the last page
tab instead of failing. -/
theorem c7_connect_clamps_tab_index (tabs : List TabInfo) (tabIndex : Nat)
    (hne : listTabsOf tabs ≠ [])
    (hws : ((listTabsOf tabs).getD
        (min tabIndex ((listTabsOf tabs).length - 1)) default).webSocketDebuggerUrl
      ≠ none) :
    connectSelectTab tabs tabIndex
      = Except.ok ((listTabsOf tabs).getD
          (min tabIndex ((listTabsOf tabs).length - 1)) default)
    ∧ min tabIndex ((listTabsOf tabs).length - 1) < (listTabsOf tabs).length
    ∧ ((listTabsOf tabs).length ≤ tabIndex →
        min tabIndex ((listTabsOf tabs).length - 1)
          = (listTabsOf tabs).length - 1) := by
  have hlen : (listTabsOf tabs).length ≠ 0 := by
    intro h
    exact hne (List.length_eq_zero.mp h)
  refine ⟨?_, ?_, ?_⟩
  · unfold connectSelectTab
    simp only [if_neg hlen]
    rcases hcase : ((listTabsOf tabs).getD
        (min tabIndex ((listTabsOf tabs).length - 1)) default).webSocketDebuggerUrl
      with _ | u
    · exact absurd hcase hws
    · simp [hcase]
  · have hpos : 0 < (listTabsOf tabs).length := Nat.pos_of_ne_zero hlen
    have h1 : (listTabsOf tabs).length - 1 < (listTabsOf tabs).length :=
      Nat.sub_lt hpos (by decide)
    exact lt_of_le_of_lt (Nat.min_le_right _ _) h1
  · intro hout
    have : (listTabsOf tabs).length - 1 ≤ tabIndex :=
      le_trans (Nat.sub_le _ _) hout
    exact Nat.min_eq_right this

/-- Four discovered tabs, one of which is not a page. -/
def demoTabs : List TabInfo :=
  [{ id := "tabA", title := "A", url := "https://a.example/",
     type := "page", webSocketDebuggerUrl := some "ws://h/devtools/page/A" },
   { id := "tabX", title := "X", url := "chrome-extension://x",
     type := "background_page", webSocketDebuggerUrl := none },
   { id := "tabB", title := "B", url := "https://b.example/",
     type := "page", webSocketDebuggerUrl := some "ws://h/devtools/page/B" },
   { id := "tabC", title := "C", url := "https://c.example/",
     type := "page", webSocketDebuggerUrl := some "ws://h/devtools/page/C" }]

/-- Witness for c7_connect_clamps_tab_index: connect(99) against the three
page tabs of demoTabs selects the clamped index, which is 2, the last page
tab. -/
theorem c7_connect_clamps_tab_index_witness :
    connectSelectTab demoTabs 99
      = Except.ok ((listTabsOf demoTabs).getD
          (min 99 ((listTabsOf demoTabs).length - 1)) default)
    ∧ min 99 ((listTabsOf demoTabs).length - 1) < (listTabsOf demoTabs).length
    ∧ ((listTabsOf demoTabs).length ≤ 99 →
        min 99 ((listTabsOf demoTabs).length - 1)
          = (listTabsOf demoTabs).length - 1) :=
  c7_connect_clamps_tab_index demoTabs 99 (by decide) (by decide)

/-- CDPClient.switchTab (cdp-client.ts lines 159-180).  The remote
connect-and-enable sequence that follows a successful guard (open the new
socket, enable the Page, DOM and Runtime domains) crosses the wire and is
abstracted as an oracle on the state.  Before it runs, the guard returns
false immediately when the requested index is not below the page-tab count
or the tab lacks a debugger address; an existing socket is closed (its
close handler fires) before reconnecting. -/
def switchTab (connectAndEnable : ClientState → TabInfo → Bool × ClientState)
    (st : ClientState) (allTabs : List TabInfo) (tabIndex : Nat) :
    Bool × ClientState :=
  let tabs := listTabsOf allTabs
  if tabs.length ≤ tabIndex then (false, st)
  else
    let tab := tabs.getD tabIndex default
    match tab.webSocketDebuggerUrl with
    | none => (false, st)
    | some _ =>
      let st1 := if st.wsOpen then onClose st else st
      connectAndEnable st1 tab

/-- Claim C10: a switchTab call whose index is at least the page-tab count
returns false with the client state exactly as it was: no clamping to the
last tab, no teardown, no reconnection. -/
theorem c10_switchtab_out_of_range
    (connectAndEnable : ClientState → TabInfo → Bool × ClientState)
    (st : ClientState) (allTabs : List TabInfo) (tabIndex : Nat)
    (hout : (listTabsOf allTabs).length ≤ tabIndex) :
    switchTab connectAndEnable st allTabs tabIndex = (false, st) := by
  unfold switchTab
  simp [hout]

/-- Witness for c10_switchtab_out_of_range: demoTabs has three page tabs,
and switchTab(3) on sampleState returns false leaving sampleState intact,
where connect(3) would have clamped. -/
theorem c10_switchtab_out_of_range_witness :
    switchTab (fun s _ => (true, s)) sampleState demoTabs 3
      = (false, sampleState) :=
  c10_switchtab_out_of_range (fun s _ => (true, s)) sampleState demoTabs 3
    (by decide)

/-- The page as the Monaco helpers see it: whether the global monaco
registry object is present, and the values of the editor instances the
registry reports. -/
structure MonacoPage where
  monacoDefined : Bool
  editors : List String
deriving DecidableEq

/-- The four actions of CDPClient.monacoEditor (cdp-client.ts line 725). -/
inductive MonacoAction where
  | detect
  | getValue
  | setValue
  | clear
deriving DecidableEq

/-- The structured values the injected Monaco scripts return. -/
inductive MValue where
  | detectAbsent (error : String)
  | detectFound (count : Nat)
  | nullValue
  | strValue (s : String)
  | errorField (error : String)
  | setSuccess (editorIndex lineCount valueLength : Nat)
  | setFailure (error : String)
  | clearSuccess (editorIndex : Nat)
deriving DecidableEq

/-- The out-of-range message interpolated into the getValue, setValue and
clear scripts (cdp-client.ts lines 753, 766, 791). -/
def outOfRangeMsg (editorIndex count : Nat) : String :=
  "Editor index " ++ toString editorIndex ++ " out of range. Found "
    ++ toString count ++ " editors."

/-- Line count reported by a Monaco model: one more than the number of
newline separators. -/
def lineCount (s : String) : Nat :=
  (s.splitOn "\n").length

/-- CDPClient.monacoEditor (cdp-client.ts lines 725-813).  The detect
script guards with typeof monaco, so an absent registry yields a
structured found:false object.  The getValue, setValue and clear scripts
begin with monaco.editor.getEditors() unguarded: when the monaco global is
absent that line throws a ReferenceError in the page, which
CDPClient.evaluate surfaces as a thrown error (modelled as Except.error).
With the registry present, an empty instance list and an out-of-range
index produce the structured objects the scripts return; setValue without
a value throws locally before any script runs. -/
def monacoEditor (page : MonacoPage) (action : MonacoAction)
    (value : Option String) (editorIndex : Nat) :
    Except String MValue × MonacoPage :=
  match action with
  | MonacoAction.detect =>
    if page.monacoDefined = false then
      (Except.ok (MValue.detectAbsent "Monaco editor not loaded on page"), page)
    else if page.editors.length = 0 then
      (Except.ok (MValue.detectAbsent "No Monaco editor instances found"), page)
    else
      (Except.ok (MValue.detectFound page.editors.length), page)
  | MonacoAction.getValue =>
    if page.monacoDefined = false then
      (Except.error "monaco is not defined", page)
    else if page.editors.length = 0 then
      (Except.ok MValue.nullValue, page)
    else if page.editors.length ≤ editorIndex then
      (Except.ok (MValue.errorField (outOfRangeMsg editorIndex page.editors.length)),
        page)
    else
      (Except.ok (MValue.strValue (page.editors.getD editorIndex "")), page)
  | MonacoAction.setValue =>
    match value with
    | none => (Except.error "value parameter required for setValue action", page)
    | some v =>
      if page.monacoDefined = false then
        (Except.error "monaco is not defined", page)
      else if page.editors.length = 0 then
        (Except.ok (MValue.setFailure "No editor found"), page)
      else if page.editors.length ≤ editorIndex then
        (Except.ok (MValue.setFailure (outOfRangeMsg editorIndex page.editors.length)),
          page)
      else
        (Except.ok (MValue.setSuccess editorIndex (lineCount v) v.length),
          { page with editors := page.editors.set editorIndex v })
  | MonacoAction.clear =>
    if page.monacoDefined = false then
      (Except.error "monaco is not defined", page)
    else if page.editors.length = 0 then
      (Except.ok (MValue.setFailure "No editor found"), page)
    else if page.editors.length ≤ editorIndex then
      (Except.ok (MValue.setFailure (outOfRangeMsg editorIndex page.editors.length)),
        page)
    else
      (Except.ok (MValue.clearSuccess editorIndex),
        { page with editors := page.editors.set editorIndex "" })

/-- Claim C8 counterexample: on a page with no monaco global, the getValue
helper (likewise setValue and clear) raises an exception instead of
returning a structured not-found result; only detect returns one. -/
theorem c8_monaco_absent_registry_counterexample :
    (monacoEditor { monacoDefined := false, editors := [] }
        MonacoAction.getValue none 0).1
      = Except.error "monaco is not defined"
    ∧ (monacoEditor { monacoDefined := false, editors := [] }
        MonacoAction.setValue (some "x") 0).1
      = Except.error "monaco is not defined"
    ∧ (monacoEditor { monacoDefined := false, editors := [] }
        MonacoAction.clear none 0).1
      = Except.error "monaco is not defined"
    ∧ (monacoEditor { monacoDefined := false, editors := [] }
        MonacoAction.detect none 0).1
      = Except.ok (MValue.detectAbsent "Monaco editor not loaded on page") := by
  refine ⟨rfl, rfl, rfl, rfl⟩

/-- Claim C8 (amended): detect returns a structured not-found result when
the registry is absent or empty; with the registry present and non-empty,
an index at or beyond the instance count makes getValue return a
structured out-of-range error object and setValue and clear a structured
success-false object, none of them an exception; but when the global
registry is absent, getValue, setValue and clear raise a script exception
(ReferenceError surfaced by evaluate) rather than returning a structured
result. -/
theorem c8_monaco_structured_results :
    (∀ (page : MonacoPage) (value : Option String) (editorIndex : Nat),
        page.monacoDefined = false →
        (monacoEditor page MonacoAction.detect value editorIndex).1
          = Except.ok (MValue.detectAbsent "Monaco editor not loaded on page"))
    ∧ (∀ (page : MonacoPage) (value : Option String) (editorIndex : Nat),
        page.monacoDefined = true → page.editors.length = 0 →
        (monacoEditor page MonacoAction.detect value editorIndex).1
          = Except.ok (MValue.detectAbsent "No Monaco editor instances found"))
    ∧ (∀ (page : MonacoPage) (editorIndex : Nat),
        page.monacoDefined = true → 0 < page.editors.length →
        page.editors.length ≤ editorIndex →
        (monacoEditor page MonacoAction.getValue none editorIndex).1
          = Except.ok (MValue.errorField (outOfRangeMsg editorIndex page.editors.length))
        ∧ (∀ s, (monacoEditor page MonacoAction.setValue (some s) editorIndex).1
            = Except.ok (MValue.setFailure (outOfRangeMsg editorIndex page.editors.length)))
        ∧ (monacoEditor page MonacoAction.clear none editorIndex).1
          = Except.ok (MValue.setFailure (outOfRangeMsg editorIndex page.editors.length)))
    ∧ (∀ (page : MonacoPage) (editorIndex : Nat),
        page.monacoDefined = false →
        (monacoEditor page MonacoAction.getValue none editorIndex).1
          = Except.error "monaco is not defined"
        ∧ (∀ s, (monacoEditor page MonacoAction.setValue (some s) editorIndex).1
            = Except.error "monaco is not defined")
        ∧ (monacoEditor page MonacoAction.clear none editorIndex).1
          = Except.error "monaco is not defined") := by
  refine ⟨?_, ?_, ?_, ?_⟩
  · intro page value editorIndex habs
    simp [monacoEditor, habs]
  · intro page value editorIndex hdef hempty
    simp [monacoEditor, hdef, hempty]
  · intro page editorIndex hdef hpos hout
    have hnz : page.editors.length ≠ 0 := Nat.pos_iff_ne_zero.mp hpos
    refine ⟨?_, ?_, ?_⟩
    · simp [monacoEditor, hdef, hnz, hout]
    · intro s
      simp [monacoEditor, hdef, hnz, hout]
    · simp [monacoEditor, hdef, hnz, hout]
  · intro page editorIndex habs
    refine ⟨?_, ?_, ?_⟩
    · simp [monacoEditor, habs]
    · intro s
      simp [monacoEditor, habs]
    · simp [monacoEditor, habs]

/-- Witness for c8_monaco_structured_results: a page with one editor and
requested index 3 gets the structured out-of-range object from getValue. -/
theorem c8_monaco_structured_results_witness :
    (monacoEditor { monacoDefined := true, editors := ["let x = 1"] }
        MonacoAction.getValue none 3).1
      = Except.ok (MValue.errorField (outOfRangeMsg 3 1)) :=
  (c8_monaco_structured_results.2.2.1
    { monacoDefined := true, editors := ["let x = 1"] } 3 rfl (by decide)
    (by decide)).1
